import Mathlib

/-!
Verification of the Dynamic Schema and Authorization Data Engine of the
backendify repository. The Python services under `backend/app` are shallowly
embedded as executable Lean definitions: SQLAlchemy queries over catalog
tables become list operations over explicit state, JSON condition documents
become a tree datatype carrying exactly the keys the evaluator reads, and
machine timestamps become natural-number seconds. Each claim about the spec
is then settled as a theorem about these definitions.
-/

set_option maxRecDepth 4000

/-! ## Dynamic values and records

Record rows and JSON condition values are dynamically typed in the source.
`Value.null` stands both for Python `None` stored in a dict and for a missing
key retrieved with `dict.get` (both compare equal to `None` and to nothing
else, which `DecidableEq` reproduces). -/

inductive Value where
  | null
  | str (s : String)
  | int (n : Int)
  | bool (b : Bool)
deriving DecidableEq, Repr

/-- Record rows are association lists from column name to value. -/
def Record := List (String × Value)

/-- Embedding of `record.get(key)`: a missing key yields `None`, modelled
as `Value.null`. -/
def pyGet (r : Record) (k : String) : Value :=
  match r.find? (fun kv => kv.1 == k) with
  | some kv => kv.2
  | none => Value.null

/-- Embedding of `record.get(field)` where `field` itself may be `None`
(`dict.get(None)` finds nothing in these records). -/
def pyGetOpt (r : Record) (k : Option String) : Value :=
  match k with
  | some f => pyGet r f
  | none => Value.null

/-- Embedding of the Python truthiness test on an optional string
(`None` and the empty string are falsy). -/
def truthyOptStr (s : Option String) : Bool :=
  match s with
  | some v => !v.isEmpty
  | none => false

/-- Splitting a character list at every occurrence of a separator (the
splitting underneath `str.split`). -/
def splitOnChar (sep : Char) : List Char → List (List Char)
  | [] => [[]]
  | c :: rest =>
    match splitOnChar sep rest with
    | [] => [[c]]
    | h :: t => if c == sep then [] :: h :: t else (c :: h) :: t

/-- Whitespace stripping on both ends, as `str.strip`. -/
def trimChars (cs : List Char) : List Char :=
  ((cs.dropWhile Char.isWhitespace).reverse.dropWhile Char.isWhitespace).reverse

/-- Embedding of `[p.strip() for p in s.split(",") if p.strip()]` from
`policy_service.py`. -/
def splitTrim (s : String) : List String :=
  (((splitOnChar ',' s.data).map trimChars).filter (fun cs => !cs.isEmpty)).map
    (fun cs => String.mk cs)

/-- Conversion of an optional principal attribute to a comparison value,
as in `_evaluate_condition_for_principal` where `value` may be replaced by
`principal.user_id` and similar attributes that can be `None`. -/
def optStrToValue (s : Option String) : Value :=
  match s with
  | some v => Value.str v
  | none => Value.null

/-! ## Principals (api/deps.py) -/

/-- Admin console user as read by the permission checks. -/
structure AdminUser where
  id : String
  email : String
deriving DecidableEq, Repr

/-- App user record attached to a principal. -/
structure AppUser where
  id : String
  email : String
  is_email_verified : Bool
deriving DecidableEq, Repr

/-- Embedding of `deps.Principal`: unified auth context for all request
types. `type` ranges over admin_user, app_user, api_key, anonymous. -/
structure Principal where
  type : String
  admin_user : Option AdminUser := none
  app_user : Option AppUser := none
  project_id : Option String := none
deriving DecidableEq, Repr

/-- Embedding of the `Principal.is_authenticated` property. -/
def Principal.is_authenticated (p : Principal) : Bool :=
  p.type != "anonymous"

/-- Embedding of the `Principal.user_id` property: the admin user id if
present, else the app user id, else `None`. -/
def Principal.user_id (p : Principal) : Option String :=
  match p.admin_user with
  | some u => some u.id
  | none =>
    match p.app_user with
    | some u => some u.id
    | none => none

/-- Embedding of the `Principal.email` property. -/
def Principal.email (p : Principal) : Option String :=
  match p.admin_user with
  | some u => some u.email
  | none =>
    match p.app_user with
    | some u => some u.email
    | none => none

/-- Embedding of the `Principal.is_email_verified` property: app users carry
their verification flag, admin users are always considered verified. -/
def Principal.is_email_verified (p : Principal) : Bool :=
  match p.app_user with
  | some u => u.is_email_verified
  | none => p.admin_user.isSome

/-! ## Policy model (models/policy.py, services/policy_service.py)

The `condition_json` column holds a JSON document; `check_permission_for_principal`
parses it and `_evaluate_condition_for_principal` reads exactly the keys
`type`, `field`, `value`, `conditions`, `condition` with `dict.get`. `Cond`
carries those five lookups directly (each `Option`, empty list default), so
an arbitrary parsed document is representable, including documents with a
missing or unrecognised `type`. `condition = none` on a policy stands for a
null or empty `condition_json`, both falsy in the guarding test. -/

inductive Cond where
  | node (ty : Option String) (field : Option String) (value : Option Value)
      (conditions : List Cond) (cond : Option Cond)
deriving Repr

/-- Embedding of the `Policy` model columns read by the authorization
engine. -/
structure Policy where
  collection_id : String
  action : String
  effect : String
  priority : Int
  is_active : Bool
  allowed_principals : Option String := none
  require_email_verified : Bool := false
  allowed_roles : Option String := none
  condition : Option Cond := none

/-- Database state visible to the authorization engine: the policy table and
the role assignment lookup performed by `rbac_service.get_user_roles`
(app user id to the names of assigned roles). -/
structure AuthDB where
  policies : List Policy
  userRoleNames : String → List String

def VALID_ACTIONS : List String := ["create", "read", "update", "delete", "list"]

def DEFAULT_ALLOWED_PRINCIPALS : List String := ["admin_user", "api_key"]

/-- Embedding of `list_policies`: active policies of the collection ordered
by `priority` descending (stable order among equal priorities). -/
def list_policies (db : AuthDB) (collection_id : String) : List Policy :=
  ((db.policies.filter (fun p => p.collection_id == collection_id && p.is_active)).mergeSort
    (fun a b => b.priority ≤ a.priority))

/-- Embedding of `_get_allowed_principals`: a null or empty
`allowed_principals` yields the default set, otherwise the comma-split
entries. -/
def get_allowed_principals (pol : Policy) : List String :=
  match pol.allowed_principals with
  | none => DEFAULT_ALLOWED_PRINCIPALS
  | some s => if s.isEmpty then DEFAULT_ALLOWED_PRINCIPALS else splitTrim s

/-- Error raised when the DBAPI driver is handed an `AppUserRecord` dataclass
as a bound query parameter: neither sqlite3 nor psycopg2 can adapt it. -/
def role_query_bind_error : String :=
  "InterfaceError: Error binding parameter: type AppUserRecord is not supported"

/-- Argument actually handed to `rbac_service.get_user_roles`, whose signature
expects the app user id string: Python also admits the whole `AppUserRecord`
dataclass, which is what `_check_user_has_role` passes. -/
inductive RoleQueryArg where
  | idStr (s : String)
  | userRecord (u : AppUser)

/-- Embedding of `rbac_service.get_user_roles`: the query compares its
argument against the plain `String` column `AppUserRole.app_user_id`. An id
string binds and yields the names of the assigned roles; an `AppUserRecord`
dataclass cannot be bound by the DBAPI driver, so the execution raises. -/
def get_user_roles (db : AuthDB) : RoleQueryArg → Except String (List String)
  | .idStr s => .ok (db.userRoleNames s)
  | .userRecord _ => .error role_query_bind_error

/-- Embedding of `_check_user_has_role`: no attached app user denies; an
empty required set passes; otherwise the code calls
`get_user_roles(db, principal.app_user)` with the whole record rather than
its id, so the lookup raises instead of producing the role-name
intersection. -/
def check_user_has_role (db : AuthDB) (p : Principal) (allowed_roles : String) :
    Except String Bool :=
  match p.app_user with
  | none => .ok false
  | some u =>
    let required := splitTrim allowed_roles
    if required.isEmpty then .ok true
    else
      match get_user_roles db (.userRecord u) with
      | .error e => .error e
      | .ok roleNames => .ok (required.any (fun r => roleNames.contains r))

/-- Body of the `owner` branch of `_evaluate_condition_for_principal`: a
falsy `principal.user_id` or a missing record denies, otherwise the owner
column of the record is compared with the principal id. -/
def evalOwnerCond (p : Principal) (field : Option String) (record : Option Record) : Bool :=
  if !truthyOptStr p.user_id then false
  else
    match record with
    | none => false
    | some r => pyGet r (field.getD "created_by_app_user_id") == optStrToValue p.user_id

/-- Body of the `app_user_owner` branch: specifically checks app user
ownership. -/
def evalAppUserOwnerCond (p : Principal) (field : Option String) (record : Option Record) : Bool :=
  match p.app_user with
  | none => false
  | some u =>
    match record with
    | none => false
    | some r => pyGet r (field.getD "created_by_app_user_id") == Value.str u.id

/-- Body of the `field_equals` branch, with the principal reference
substitutions on the comparison value. -/
def evalFieldEqualsCond (p : Principal) (field : Option String) (value : Option Value)
    (record : Option Record) : Bool :=
  match record with
  | none => false
  | some r =>
    let v0 := value.getD Value.null
    let v :=
      if v0 == Value.str "principal.user_id" then optStrToValue p.user_id
      else if v0 == Value.str "principal.email" then optStrToValue p.email
      else if v0 == Value.str "principal.app_user_id" && p.app_user.isSome then
        match p.app_user with
        | some u => Value.str u.id
        | none => v0
      else v0
    pyGetOpt r field == v

mutual

/-- Embedding of `_evaluate_condition_for_principal`: the sequential chain of
`if cond_type == ...` tests, falling through to `True` for any other type. -/
def evaluate_condition_for_principal (c : Cond) (p : Principal) (record : Option Record) : Bool :=
  match c with
  | .node ty field value conditions cond =>
    if ty == some "authenticated" then
      p.is_authenticated
    else if ty == some "owner" then
      evalOwnerCond p field record
    else if ty == some "app_user_owner" then
      evalAppUserOwnerCond p field record
    else if ty == some "field_equals" then
      evalFieldEqualsCond p field value record
    else if ty == some "and" then
      evalCondAll conditions p record
    else if ty == some "or" then
      evalCondAny conditions p record
    else if ty == some "not" then
      !(evalCondSub cond p record)
    else
      true

/-- Evaluation of the operand of a `not` node: a missing `condition` key is
the empty document, whose unknown type evaluates to true. -/
def evalCondSub (cond : Option Cond) (p : Principal) (record : Option Record) : Bool :=
  match cond with
  | some c1 => evaluate_condition_for_principal c1 p record
  | none => true

/-- Conjunction over subconditions, as `all(...)` in the `and` branch. -/
def evalCondAll (cs : List Cond) (p : Principal) (record : Option Record) : Bool :=
  match cs with
  | [] => true
  | c :: rest => evaluate_condition_for_principal c p record && evalCondAll rest p record

/-- Disjunction over subconditions, as `any(...)` in the `or` branch. -/
def evalCondAny (cs : List Cond) (p : Principal) (record : Option Record) : Bool :=
  match cs with
  | [] => false
  | c :: rest => evaluate_condition_for_principal c p record || evalCondAny rest p record

end

/-- Scanning loop of `check_permission_for_principal`: each policy is skipped
on an action mismatch, a principal type outside the allowed set, an
unsatisfied email-verification requirement, a failed role check (app users
with `allowed_roles` set), or a false condition; the first surviving policy
decides via its effect. The role check raises for any app user principal
with an attached record once the required role set is nonempty, and that
error propagates out of the scan uncaught. -/
def scan_policies (db : AuthDB) (action : String) (p : Principal) (record : Option Record) :
    List Policy → Except String Bool
  | [] => .ok false
  | pol :: rest =>
    if pol.action != action then
      scan_policies db action p record rest
    else if !(get_allowed_principals pol).contains p.type then
      scan_policies db action p record rest
    else if pol.require_email_verified && !p.is_email_verified then
      scan_policies db action p record rest
    else
      match (if truthyOptStr pol.allowed_roles && p.type == "app_user" then
               check_user_has_role db p (pol.allowed_roles.getD "")
             else Except.ok true) with
      | .error e => .error e
      | .ok hasRole =>
        if !hasRole then
          scan_policies db action p record rest
        else
          match pol.condition with
          | some c =>
            if !evaluate_condition_for_principal c p record then
              scan_policies db action p record rest
            else
              .ok (pol.effect == "allow")
          | none => .ok (pol.effect == "allow")

/-- Embedding of `check_permission_for_principal`: admin users always pass;
with no active policy only the default principal set passes; otherwise the
ordered policies are scanned (a role lookup error propagating) and the
fallthrough is deny. -/
def check_permission_for_principal (db : AuthDB) (collection_id : String) (action : String)
    (p : Principal) (record : Option Record) : Except String Bool :=
  if p.type == "admin_user" then .ok true
  else
    let policies := list_policies db collection_id
    if policies.isEmpty then
      .ok (DEFAULT_ALLOWED_PRINCIPALS.contains p.type)
    else
      scan_policies db action p record policies

/-! ## Catalog records (models/collection.py, models/field.py) -/

/-- Embedding of the `Collection` model columns read by the engine. -/
structure CollectionRec where
  id : String
  project_id : String
  name : String
  display_name : String
  sql_table_name : String
  is_active : Bool
  is_system : Bool := false
deriving DecidableEq, Repr

/-- Embedding of the `Field` model columns read by the engine. Timestamps
are natural-number seconds. -/
structure FieldRec where
  id : String
  collection_id : String
  name : String
  display_name : String
  field_type : String
  sql_column_name : String
  is_required : Bool := false
  is_unique : Bool := false
  is_indexed : Bool := false
  default_value : Option String := none
  is_deleted : Bool := false
  deleted_at : Option Nat := none
  is_system : Bool := false
  is_hidden : Bool := false
deriving DecidableEq, Repr

/-! ## Identifier validator and type maps (services/schema_manager.py) -/

def RESERVED_WORDS : List String :=
  ["select", "insert", "update", "delete", "drop", "create", "alter", "table",
   "index", "from", "where", "and", "or", "not", "null", "true", "false",
   "primary", "foreign", "key", "references", "constraint", "unique", "check",
   "default", "on", "cascade", "set", "grant", "revoke", "user", "role",
   "schema", "database", "public", "information_schema", "pg_catalog"]

def isLowerAlpha (c : Char) : Bool := 'a' ≤ c && c ≤ 'z'

def isSlugChar (c : Char) : Bool := isLowerAlpha c || ('0' ≤ c && c ≤ '9') || c == '_'

/-- Embedding of `validate_slug`: the name must match
`^[a-z][a-z0-9_]{0,62}$` and avoid the reserved words. -/
def validate_slug (name : String) : Bool :=
  (match name.data with
   | [] => false
   | c :: cs => isLowerAlpha c && cs.length ≤ 62 && cs.all isSlugChar)
  && !RESERVED_WORDS.contains name

def FIELD_TYPE_MAP : List (String × String) :=
  [("string", "text"), ("int", "bigint"), ("float", "double precision"),
   ("bool", "boolean"), ("date", "date"), ("datetime", "timestamptz"),
   ("uuid", "uuid")]

def FIELD_TYPE_MAP_SQLITE : List (String × String) :=
  [("string", "TEXT"), ("int", "INTEGER"), ("float", "REAL"),
   ("bool", "INTEGER"), ("date", "TEXT"), ("datetime", "TEXT"),
   ("uuid", "TEXT")]

/-- Embedding of `dict.get(key, default)` over an association list. -/
def pyDictGetD (m : List (String × String)) (k d : String) : String :=
  match m.find? (fun kv => kv.1 == k) with
  | some kv => kv.2
  | none => d

/-- Embedding of `key in dict` over an association list. -/
def pyDictHasKey {α : Type} (m : List (String × α)) (k : String) : Bool :=
  m.any (fun kv => kv.1 == k)

/-- Embedding of `dict[key] = value` (Python 3.7 dicts keep the original
insertion position when a key is overwritten). -/
def pyDictInsert {α : Type} (k : String) (v : α) (m : List (String × α)) : List (String × α) :=
  if m.any (fun kv => kv.1 == k) then
    m.map (fun kv => if kv.1 == k then (k, v) else kv)
  else m ++ [(k, v)]

/-- Embedding of `dict.get(key)` returning an optional value. -/
def pyDictLookup {α : Type} (m : List (String × α)) (k : String) : Option α :=
  (m.find? (fun kv => kv.1 == k)).map (fun kv => kv.2)

/-- The SQL single-quote character, used when formatting string defaults. -/
def sqlQuoteChar : Char := Char.ofNat 39

def sqlStrLit (s : String) : String :=
  String.singleton sqlQuoteChar ++ s ++ String.singleton sqlQuoteChar

/-- Physical table reference: prefixed table on the SQLite dialect, schema
qualified name on the Postgres dialect (as interpolated throughout the
services). -/
def targetTable (is_sqlite : Bool) (schema_name table_name : String) : String :=
  if is_sqlite then "\"coll_" ++ table_name ++ "\""
  else "\"" ++ schema_name ++ "\".\"" ++ table_name ++ "\""

/-! ## Schema manager: add_column_to_table (services/schema_manager.py) -/

/-- Nullability computed by `add_column_to_table`: `NULL` unless required;
a required field with no default is downgraded back to `NULL`. -/
def add_column_nullability (f : FieldRec) : String :=
  if !f.is_required then "NULL"
  else if f.default_value.isSome then "NOT NULL"
  else "NULL"

/-- Default clause computed by `add_column_to_table` (string defaults quoted,
bool defaults lowercased, otherwise verbatim; empty when absent). -/
def add_column_default_clause (f : FieldRec) : String :=
  match f.is_required, f.default_value with
  | true, some dv =>
    if f.field_type == "string" then "DEFAULT " ++ sqlStrLit dv
    else if f.field_type == "bool" then "DEFAULT " ++ dv.toLower
    else "DEFAULT " ++ dv
  | _, _ => ""

/-- Embedding of `add_column_to_table`: the list of DDL statements executed
(ADD COLUMN, then a unique or secondary index when requested). -/
def add_column_to_table (is_sqlite : Bool) (schema_name : String) (collection : CollectionRec)
    (f : FieldRec) : List String :=
  let table_name := collection.sql_table_name
  let sql_type :=
    if is_sqlite then pyDictGetD FIELD_TYPE_MAP_SQLITE f.field_type "TEXT"
    else pyDictGetD FIELD_TYPE_MAP f.field_type "text"
  let target := targetTable is_sqlite schema_name table_name
  let alter := "ALTER TABLE " ++ target ++ " ADD COLUMN \"" ++ f.sql_column_name ++ "\" "
    ++ sql_type ++ " " ++ add_column_nullability f ++ " " ++ add_column_default_clause f
  let idx :=
    if f.is_unique then
      ["CREATE UNIQUE INDEX \"uq_" ++ table_name ++ "_" ++ f.sql_column_name ++ "\" ON "
        ++ target ++ " (\"" ++ f.sql_column_name ++ "\")"]
    else if f.is_indexed then
      ["CREATE INDEX \"ix_" ++ table_name ++ "_" ++ f.sql_column_name ++ "\" ON "
        ++ target ++ " (\"" ++ f.sql_column_name ++ "\")"]
    else []
  alter :: idx

/-! ## Collections service: add_field (services/collections.py) -/

/-- Embedding of `add_field`: validation (slug, known type, duplicate or
system name, required-without-default) precedes catalog insert and DDL; an
error result carries the HTTP status code and detail of the raised
HTTPException, a success carries the new field row and the DDL statements
executed. -/
def add_field (is_sqlite : Bool) (schema_name : String) (collection : CollectionRec)
    (collection_fields : List FieldRec) (name display_name field_type : String)
    (is_required is_unique is_indexed : Bool) (default_value : Option String) :
    Except (Nat × String) (FieldRec × List String) :=
  if !validate_slug name then
    .error (400, "Invalid field name. Must be lowercase, start with a letter, and contain only letters, numbers, and underscores.")
  else if !pyDictHasKey FIELD_TYPE_MAP field_type then
    .error (400, "Invalid field type.")
  else
    match collection_fields.find? (fun f => f.name == name) with
    | some existing =>
      if existing.is_system then
        .error (400, "Field " ++ sqlStrLit name ++ " is a system field and cannot be modified.")
      else
        .error (409, "Field with this name already exists")
    | none =>
      if is_required && default_value.isNone then
        .error (400, "Required fields must have a default value for existing rows")
      else
        let f : FieldRec :=
          { id := "new", collection_id := collection.id, name := name,
            display_name := display_name, field_type := field_type,
            sql_column_name := name, is_required := is_required,
            is_unique := is_unique, is_indexed := is_indexed,
            default_value := default_value, is_system := false, is_hidden := false }
        .ok (f, add_column_to_table is_sqlite schema_name collection f)

/-! ## List endpoint filter assembly (api/routes/data.py)

The list route builds a `filters` dict before calling `list_records` and
`count_records`. Compiled filter values carry the result of the per-type
conversion the route applies for the `eq` operator; a float conversion keeps
the raw text (the numeric value is only ever passed on as a bind parameter,
so its arithmetic meaning never matters here). -/

inductive FilterVal where
  | str (s : String)
  | int (n : Int)
  | bool (b : Bool)
  | float (raw : String)
deriving DecidableEq, Repr

/-- System columns that the list route lets through as filter and sort
targets. -/
def system_columns : List String :=
  ["created_by_user_id", "created_by_app_user_id", "id", "created_at", "updated_at"]

def reserved_params : List String := ["limit", "offset", "sort"]

/-- Simple decimal check standing for a successful Python `float(value)`
call (sign, digits, optional fractional part). -/
def isFloatString (s : String) : Bool :=
  let t := trimChars s.data
  let t :=
    match t with
    | c :: rest => if c == '+' || c == '-' then rest else c :: rest
    | [] => []
  match splitOnChar '.' t with
  | [a] => !a.isEmpty && a.all Char.isDigit
  | [a, b] => (!a.isEmpty || !b.isEmpty) && a.all Char.isDigit && b.all Char.isDigit
  | _ => false

/-- Splitting a character list at the LAST occurrence of a two-character
separator, as `key.rsplit(sep, 1)` does for a separator present in the key. -/
def lastSplitOnPair (sep1 sep2 : Char) : List Char → Option (List Char × List Char)
  | [] => none
  | [_] => none
  | c1 :: c2 :: rest =>
    match lastSplitOnPair sep1 sep2 (c2 :: rest) with
    | some (l, r) => some (c1 :: l, r)
    | none => if c1 == sep1 && c2 == sep2 then some ([], rest) else none

/-- Embedding of `key.rsplit("__", 1)` followed by the base and operator
selection of the route (a key without a double underscore keeps the implicit
`eq` operator). -/
def route_parse_key (key : String) : String × String :=
  match lastSplitOnPair '_' '_' key.data with
  | some (l, r) => (String.mk l, String.mk r)
  | none => (key, "eq")

/-- Field map the route builds for validating filter params: name to field
for the non-deleted fields, then `sql_column_name` to field when distinct. -/
def build_route_field_map (fields : List FieldRec) : List (String × FieldRec) :=
  let active := fields.filter (fun f => !f.is_deleted)
  let m := active.foldl (fun m f => pyDictInsert f.name f m) []
  active.foldl
    (fun m f =>
      if !f.sql_column_name.isEmpty && f.sql_column_name != f.name then
        pyDictInsert f.sql_column_name f m
      else m)
    m

/-- Value conversion the route applies for the `eq` operator, dispatching on
the catalog field type (an unparsable number keeps the raw string, as the
`except ValueError: pass` does). -/
def convert_eq_value (f : FieldRec) (value : String) : FilterVal :=
  if f.field_type == "boolean" then
    .bool (["true", "1", "yes"].contains value.toLower)
  else if f.field_type == "int" then
    match value.toInt? with
    | some n => .int n
    | none => .str value
  else if f.field_type == "float" then
    if isFloatString value then .float value else .str value
  else .str value

/-- Processing of one query parameter by the list route: reserved params are
skipped, known fields are rewritten to their column name (with the value
conversion on `eq`), system columns pass through, and any other field name
falls off the end without touching the filters and without raising. -/
def process_list_filter_param (field_map : List (String × FieldRec))
    (filters : List (String × FilterVal)) (kv : String × String) :
    List (String × FilterVal) :=
  let key := kv.1
  let value := kv.2
  if reserved_params.contains key then filters
  else
    let parsed := route_parse_key key
    let base_field := parsed.1
    let operator := parsed.2
    match pyDictLookup field_map base_field with
    | some f =>
      let column_name := f.sql_column_name
      let v := if operator == "eq" then convert_eq_value f value else .str value
      if operator != "eq" then pyDictInsert (column_name ++ "__" ++ operator) v filters
      else pyDictInsert column_name v filters
    | none =>
      if system_columns.contains base_field then
        if operator != "eq" then pyDictInsert (base_field ++ "__" ++ operator) (.str value) filters
        else pyDictInsert base_field (.str value) filters
      else filters

/-- Embedding of the filter assembly in `list_collection_records`: the
ownership filter injected for app user principals, then the query string
folded through `process_list_filter_param`. The resulting dict is handed to
both `list_records` and `count_records`. -/
def assemble_list_filters (principal : Principal) (fields : List FieldRec)
    (query_params : List (String × String)) : List (String × FilterVal) :=
  let filters : List (String × FilterVal) :=
    match principal.app_user with
    | some u => if principal.type == "app_user" then [("created_by_app_user_id", .str u.id)] else []
    | none => []
  let field_map := build_route_field_map fields
  query_params.foldl (process_list_filter_param field_map) filters

/-! ## Schema evolution (services/schema_evolution.py) -/

def ALIAS_GRACE_PERIOD_DAYS : Nat := 30

/-- Thirty days in seconds: the alias grace period added to the rename
instant. -/
def aliasGracePeriodSeconds : Nat := ALIAS_GRACE_PERIOD_DAYS * 86400

/-- Embedding of the `CollectionAlias` model. -/
structure CollectionAliasRec where
  collection_id : String
  project_id : String
  old_name : String
  expires_at : Option Nat
deriving DecidableEq, Repr

/-- Catalog state touched by collection rename and resolution. -/
structure SchemaState where
  collections : List CollectionRec
  collection_aliases : List CollectionAliasRec
deriving Repr

/-- Safe conversion pairs, the keys of `SAFE_TYPE_CONVERSIONS` (and of its
SQLite twin, which has the same keys). -/
def SAFE_TYPE_CONVERSION_PAIRS : List (String × String) :=
  [("int", "float"), ("string", "text"), ("date", "datetime")]

/-- Cast template of `SAFE_TYPE_CONVERSIONS` on the Postgres dialect: the
`(string, text)` entry maps to `None` (no `USING` clause). -/
def safe_conversion_cast (from_type to_type col : String) : Option String :=
  if from_type == "int" && to_type == "float" then
    some ("CAST(" ++ col ++ " AS double precision)")
  else if from_type == "date" && to_type == "datetime" then
    some ("CAST(" ++ col ++ " AS timestamptz)")
  else none

/-- Cast template of `SAFE_TYPE_CONVERSIONS_SQLITE`. -/
def safe_conversion_cast_sqlite (from_type to_type col : String) : Option String :=
  if from_type == "int" && to_type == "float" then
    some ("CAST(" ++ col ++ " AS REAL)")
  else if from_type == "date" && to_type == "datetime" then
    some col
  else none

/-- Embedding of `is_safe_type_conversion`. -/
def is_safe_type_conversion (from_type to_type : String) : Bool :=
  if from_type == to_type then true
  else SAFE_TYPE_CONVERSION_PAIRS.contains (from_type, to_type)

/-- Catalog mutation applied to the renamed collection row: new name, new
physical table name, and the optional display name (kept when the new one is
absent or empty, as the truthiness test in the source does). -/
def renamed_collection (c : CollectionRec) (new_name : String)
    (new_display_name : Option String) : CollectionRec :=
  { c with
      name := new_name,
      sql_table_name := new_name,
      display_name := match new_display_name with
        | some d => if d.isEmpty then c.display_name else d
        | none => c.display_name }

/-- Embedding of `rename_collection` (success path data): slug validation,
lock acquisition, table rename DDL, alias row with a 30 day expiry, catalog
name updates. The caller holds the collection row; `now` is the rename
instant in seconds. -/
def rename_collection (st : SchemaState) (project_id : String) (collection_id : String)
    (new_name : String) (new_display_name : Option String) (now : Nat)
    (lock_acquired : Bool) : Except String SchemaState :=
  if !validate_slug new_name then
    .error ("Invalid collection name: " ++ new_name)
  else if !lock_acquired then
    .error "Could not acquire lock for schema change"
  else
    match st.collections.find? (fun c => c.id == collection_id) with
    | none => .error "Collection not found"
    | some c =>
      .ok
        { collections := st.collections.map (fun x =>
            if x.id == collection_id then renamed_collection c new_name new_display_name else x),
          collection_aliases := st.collection_aliases
            ++ [{ collection_id := c.id, project_id := project_id, old_name := c.name,
                  expires_at := some (now + aliasGracePeriodSeconds) }] }

/-- Embedding of `resolve_collection_by_name_or_alias`: first the active
collection with the current name, else a project alias whose expiry is null
or strictly in the future, resolved to its target row. -/
def resolve_collection_by_name_or_alias (st : SchemaState) (project_id name : String)
    (now : Nat) : Option CollectionRec :=
  match st.collections.find? (fun c =>
      c.project_id == project_id && c.name == name && c.is_active) with
  | some c => some c
  | none =>
    match st.collection_aliases.find? (fun a =>
        a.project_id == project_id && a.old_name == name) with
    | some aliasRow =>
      if aliasRow.expires_at.isNone || aliasRow.expires_at.any (fun e => now < e) then
        st.collections.find? (fun c => c.id == aliasRow.collection_id)
      else none
    | none => none

/-- Embedding of `hard_delete_field`: requires prior soft delete or `force`;
then (under the lock) executes `DROP COLUMN` and removes the field row. A
success carries the remaining catalog rows and the DDL issued. There is no
`is_system` test anywhere on this path. -/
def hard_delete_field (is_sqlite : Bool) (schema_name : String) (collection : CollectionRec)
    (collection_fields : List FieldRec) (field : FieldRec) (force : Bool)
    (lock_acquired : Bool) : Except String (List FieldRec × List String) :=
  if !field.is_deleted && !force then
    .error "Field must be soft-deleted first. Use force=True to skip."
  else if !lock_acquired then
    .error "Could not acquire lock for schema change"
  else
    let target := targetTable is_sqlite schema_name collection.sql_table_name
    let drop_sql := "ALTER TABLE " ++ target ++ " DROP COLUMN \"" ++ field.sql_column_name ++ "\""
    .ok (collection_fields.filter (fun f => f.id != field.id), [drop_sql])

/-- Embedding of `change_field_type`: same-type and non-whitelisted requests
fail before the lock with no DDL; otherwise the ALTER statement is built
(with a `USING` cast exactly when the conversion table provides one) and
executed on the Postgres dialect only, and the catalog type is updated. A
success carries the updated field row and the DDL issued. There is no
`is_system` test anywhere on this path. -/
def change_field_type (is_sqlite : Bool) (schema_name : String) (collection : CollectionRec)
    (field : FieldRec) (new_type : String) (lock_acquired : Bool) :
    Except String (FieldRec × List String) :=
  let old_type := field.field_type
  if old_type == new_type then
    .error "New type is the same as current type"
  else if !is_safe_type_conversion old_type new_type then
    .error ("Unsafe type conversion from " ++ old_type ++ " to " ++ new_type ++ ". Use the migration wizard for complex conversions.")
  else if !lock_acquired then
    .error "Could not acquire lock for schema change"
  else
    let table_name := collection.sql_table_name
    let column_name := field.sql_column_name
    let target := targetTable is_sqlite schema_name table_name
    let new_sql_type :=
      if is_sqlite then pyDictGetD FIELD_TYPE_MAP_SQLITE new_type "TEXT"
      else pyDictGetD FIELD_TYPE_MAP new_type "text"
    let conversion :=
      if is_sqlite then safe_conversion_cast_sqlite old_type new_type ("\"" ++ column_name ++ "\"")
      else safe_conversion_cast old_type new_type ("\"" ++ column_name ++ "\"")
    let alter_sql :=
      match conversion with
      | none =>
        "ALTER TABLE " ++ target ++ " ALTER COLUMN \"" ++ column_name ++ "\" TYPE " ++ new_sql_type
      | some cast_expr =>
        "ALTER TABLE " ++ target ++ " ALTER COLUMN \"" ++ column_name ++ "\" TYPE " ++ new_sql_type
          ++ " USING " ++ cast_expr
    let executed := if !is_sqlite then [alter_sql] else []
    .ok ({ field with field_type := new_type }, executed)

/-! ## View engine (services/view_service.py)

Only the pieces `execute_view` uses to cap its result are embedded: the
stored limits, the params_schema scan for `limit` and `offset` typed
parameters, and the final LIMIT/OFFSET applied to the rows matching the
compiled WHERE predicate. The matching rows are passed in as a list (the
claims under test are about cardinality, not about the predicate itself).
Caller params are名 integer valued for this scan. -/

def MAX_ROWS : Int := 1000

/-- Embedding of a `View` row as read by `execute_view`. `params_schema`
maps each declared parameter name to its declared type string. -/
structure ViewRec where
  name : String
  version : Int
  default_limit : Int
  max_limit : Int
  params_schema : List (String × String) := []
deriving Repr

/-- Result shape of `execute_view`. -/
structure ViewExecResult where
  data : List Record
  total : Nat
  limit : Int
  offset : Int
  view_name : String
  view_version : Int

/-- Embedding of the params_schema scan in `execute_view`: each declared
parameter of type `limit` or `offset` overwrites the respective slot with a
caller params lookup (only when the caller params dict is truthy, that is,
present and non-empty). -/
def scan_view_params (params_schema : List (String × String))
    (params : Option (List (String × Int))) : Option Int × Option Int :=
  let paramsTruthy := match params with
    | some ps => !ps.isEmpty
    | none => false
  params_schema.foldl
    (fun acc nd =>
      if nd.2 == "limit" && paramsTruthy then (pyDictLookup (params.getD []) nd.1, acc.2)
      else if nd.2 == "offset" && paramsTruthy then (acc.1, pyDictLookup (params.getD []) nd.1)
      else acc)
    (none, none)

/-- Embedding of the Python expression `x or d` on an optional integer:
`None` and `0` both fall back to the default. -/
def pyOrInt (o : Option Int) (d : Int) : Int :=
  match o with
  | none => d
  | some v => if v == 0 then d else v

/-- The `final_limit` local of `execute_view`: a parameterized limit wins
over the request body limit. -/
def view_final_limit (view : ViewRec) (params : Option (List (String × Int)))
    (limit : Option Int) : Option Int :=
  match (scan_view_params view.params_schema params).1 with
  | some v => some v
  | none => limit

/-- The `effective_limit` local of `execute_view`:
`min(final_limit or default_limit, max_limit, MAX_ROWS)`. -/
def view_effective_limit (view : ViewRec) (params : Option (List (String × Int)))
    (limit : Option Int) : Int :=
  min (min (pyOrInt (view_final_limit view params limit) view.default_limit)
    view.max_limit) MAX_ROWS

/-- Embedding of `execute_view` (cap logic): the effective limit is
`min(final_limit or default_limit, max_limit, MAX_ROWS)` and is passed to
the SQL LIMIT. On the SQLite dialect a negative LIMIT means no bound and a
negative OFFSET is ignored; the Postgres dialect rejects a negative LIMIT at
execution, which surfaces as an error. -/
def execute_view (is_sqlite : Bool) (view : ViewRec) (matching : List Record)
    (params : Option (List (String × Int))) (limit : Option Int) (offset : Int) :
    Except String ViewExecResult :=
  let scanned := scan_view_params view.params_schema params
  let final_offset : Int :=
    match scanned.2 with
    | some v => v
    | none => offset
  let effective_limit : Int := view_effective_limit view params limit
  if effective_limit < 0 && !is_sqlite then
    .error "LIMIT must not be negative"
  else
    .ok
      { data :=
          if effective_limit < 0 then matching.drop final_offset.toNat
          else (matching.drop final_offset.toNat).take effective_limit.toNat,
        total := matching.length,
        limit := effective_limit,
        offset := final_offset,
        view_name := view.name,
        view_version := view.version }

/-! ## Spec-side definitions and proof fixtures -/

/-- Spec wording (claim C1): the role gate as the claim states it — for an
app user, `allowed_roles` must intersect the principal's assigned role
names, read through an id-keyed lookup (the lookup the rest of
`rbac_service` performs when handed the id string). The code path that
should compute this raises instead, so this definition follows the words of
the claim, for comparison with the embedding. -/
def spec_role_intersection (db : AuthDB) (p : Principal) (allowed_roles : String) : Bool :=
  match p.app_user with
  | none => false
  | some u =>
    let required := splitTrim allowed_roles
    if required.isEmpty then true
    else required.any (fun r => (db.userRoleNames u.id).contains r)

/-- Spec wording (claim C1): the full gate of one policy against the request,
conjoining the action match, the allowed principal set, the email
verification requirement, the role intersection for app users, and the
condition tree. -/
def spec_policy_gate (db : AuthDB) (action : String) (p : Principal) (record : Option Record)
    (pol : Policy) : Bool :=
  pol.action == action
    && (get_allowed_principals pol).contains p.type
    && (!pol.require_email_verified || p.is_email_verified)
    && (!(truthyOptStr pol.allowed_roles && p.type == "app_user")
        || spec_role_intersection db p (pol.allowed_roles.getD ""))
    && evalCondSub pol.condition p record

/-- Spec wording (claim C1): the decision is the effect of the first policy
in the given order passing the full gate, and deny when none does. -/
def spec_scan_decision (db : AuthDB) (action : String) (p : Principal) (record : Option Record)
    (policies : List Policy) : Bool :=
  match policies.find? (spec_policy_gate db action p record) with
  | some pol => pol.effect == "allow"
  | none => false

/-- Fixture for C1: one active allow policy gated on the `editor` role. -/
def c1_fixture_policy : Policy :=
  { collection_id := "c1", action := "read", effect := "allow", priority := 5,
    is_active := true, allowed_principals := some "app_user",
    require_email_verified := false, allowed_roles := some "editor",
    condition := none }

/-- Fixture database for C1: the role table assigns `editor` to app user 7. -/
def c1_fixture_db : AuthDB :=
  { policies := [c1_fixture_policy],
    userRoleNames := fun uid => if uid == "7" then ["editor"] else [] }

def c1_fixture_principal : Principal :=
  { type := "app_user",
    app_user := some { id := "7", email := "a@example.com", is_email_verified := true } }

def c1_fixture_record : Record := [("created_by_app_user_id", Value.str "7")]

/-- Adjacent double underscore detector, used to separate operator-suffixed
filter keys from the plain ownership column name. -/
def hasDoubleUnderscore : List Char → Bool
  | c1 :: c2 :: rest => (c1 == '_' && c2 == '_') || hasDoubleUnderscore (c2 :: rest)
  | _ => false

def c7_fixture_collection : CollectionRec :=
  { id := "c1", project_id := "p1", name := "items", display_name := "Items",
    sql_table_name := "items", is_active := true }

def c7_fixture_float_field : FieldRec :=
  { id := "f2", collection_id := "c1", name := "price", display_name := "Price",
    field_type := "float", sql_column_name := "price" }

def c7_fixture_int_field : FieldRec :=
  { id := "f3", collection_id := "c1", name := "qty", display_name := "Qty",
    field_type := "int", sql_column_name := "qty" }

def c5_fixture_orders : CollectionRec :=
  { id := "c1", project_id := "p1", name := "orders", display_name := "Orders",
    sql_table_name := "orders", is_active := true }

def c5_fixture_pre : SchemaState :=
  { collections := [c5_fixture_orders], collection_aliases := [] }

def c5_fixture_post : SchemaState :=
  { collections := [{ id := "c1", project_id := "p1", name := "purchases",
                      display_name := "Orders", sql_table_name := "purchases",
                      is_active := true }],
    collection_aliases := [{ collection_id := "c1", project_id := "p1",
                             old_name := "orders", expires_at := some 2593000 }] }

def c6_fixture_view : ViewRec :=
  { name := "recent", version := 1, default_limit := 100, max_limit := 1000 }

def c6_fixture_rows : List Record :=
  [[("id", Value.int 1)], [("id", Value.int 2)], [("id", Value.int 3)]]

/-- Substring occurrence test over character lists (used to state that a
DDL statement carries no USING token). -/
def containsSeq (pat : List Char) : List Char → Bool
  | [] => pat.isEmpty
  | c :: rest => pat.isPrefixOf (c :: rest) || containsSeq pat rest

/-! ## Theorems -/

/-- C9: a condition node whose `type` is missing or is none of
authenticated, owner, app_user_owner, field_equals, and, or, not evaluates
to true for every principal and every record, so a policy carrying such a
condition has its condition gate pass unconditionally. -/
theorem unknown_condition_type_evaluates_true
    (ty : Option String) (field : Option String) (value : Option Value)
    (conditions : List Cond) (cond : Option Cond) (p : Principal) (r : Option Record)
    (h : ∀ s, ty = some s →
      s ∉ (["authenticated", "owner", "app_user_owner", "field_equals", "and", "or", "not"] : List String)) :
    evaluate_condition_for_principal (.node ty field value conditions cond) p r = true := by
  cases ty with
  | none => simp [evaluate_condition_for_principal]
  | some s =>
    have hs := h s rfl
    simp only [List.mem_cons, List.not_mem_nil, or_false, not_or] at hs
    obtain ⟨h1, h2, h3, h4, h5, h6, h7⟩ := hs
    simp [evaluate_condition_for_principal, h1, h2, h3, h4, h5, h6, h7]

/-- Witness for C9 at the concrete type string misspelled. -/
theorem unknown_condition_type_evaluates_true_witness :
    ("misspelled" : String) ∉ (["authenticated", "owner", "app_user_owner", "field_equals", "and", "or", "not"] : List String) ∧
    evaluate_condition_for_principal
      (.node (some "misspelled") none none [] none)
      { type := "anonymous" } none = true := by
  refine ⟨by decide, ?_⟩
  exact unknown_condition_type_evaluates_true (some "misspelled") none none [] none
    { type := "anonymous" } none
    (by intro s hs; injection hs with h; subst h; decide)

/-- C2: an admin_user principal is always allowed, for every action and
policy configuration; and with zero active policies on the collection the
decision is allow exactly for the admin_user and api_key principal types. -/
theorem admin_always_allowed_and_empty_policy_default
    (db : AuthDB) (cid action : String) (p : Principal) (record : Option Record) :
    (p.type = "admin_user" →
      check_permission_for_principal db cid action p record = Except.ok true) ∧
    (list_policies db cid = [] →
      (check_permission_for_principal db cid action p record = Except.ok true ↔
        (p.type = "admin_user" ∨ p.type = "api_key"))) := by
  constructor
  · intro h
    simp [check_permission_for_principal, h]
  · intro h
    by_cases hadmin : p.type = "admin_user"
    · simp [check_permission_for_principal, hadmin]
    · simp [check_permission_for_principal, beq_iff_eq, hadmin, h,
        DEFAULT_ALLOWED_PRINCIPALS, List.contains, List.any]

/-- Witness for C2: an admin principal against a deny-all policy is allowed,
and with no policies an app_user is denied while an api_key is allowed. -/
theorem admin_always_allowed_and_empty_policy_default_witness :
    (check_permission_for_principal
      { policies := [{ collection_id := "c1", action := "read", effect := "deny",
                       priority := 0, is_active := true }],
        userRoleNames := fun _ => [] }
      "c1" "read" { type := "admin_user" } none = Except.ok true) ∧
    (check_permission_for_principal
      { policies := [], userRoleNames := fun _ => [] }
      "c1" "read" { type := "api_key" } none = Except.ok true) ∧
    (check_permission_for_principal
      { policies := [], userRoleNames := fun _ => [] }
      "c1" "read" { type := "app_user" } none = Except.ok false) := by
  refine ⟨?_, ?_, ?_⟩
  · exact (admin_always_allowed_and_empty_policy_default
      { policies := [{ collection_id := "c1", action := "read", effect := "deny",
                       priority := 0, is_active := true }],
        userRoleNames := fun _ => [] } "c1" "read" { type := "admin_user" } none).1 rfl
  · exact ((admin_always_allowed_and_empty_policy_default
      { policies := [], userRoleNames := fun _ => [] }
      "c1" "read" { type := "api_key" } none).2 (by simp [list_policies])).mpr (Or.inr rfl)
  · have h0 : list_policies
        { policies := [], userRoleNames := fun _ => ([] : List String) } "c1" = [] := by
      simp [list_policies]
    have hne := ((admin_always_allowed_and_empty_policy_default
      { policies := [], userRoleNames := fun _ => [] }
      "c1" "read" { type := "app_user" } none).2 h0)
    simp only [check_permission_for_principal, h0] at hne ⊢
    simp [DEFAULT_ALLOWED_PRINCIPALS]

/-- C1: code bug evidence. At a collection whose single active policy is an
allow policy for the read action, open to app_user principals and gated on
the editor role, and a requesting app user who holds editor (so the claimed
scan decides allow: the full gate of the first policy, role intersection
included, passes), `check_permission_for_principal` returns no decision at
all: `_check_user_has_role` passes the whole `AppUserRecord` to
`get_user_roles`, whose comparison against the `String` column
`AppUserRole.app_user_id` raises at parameter binding, and the error
propagates out of the scan. -/
theorem role_gated_policy_scan_raises :
    spec_scan_decision c1_fixture_db "read" c1_fixture_principal (some c1_fixture_record)
        (list_policies c1_fixture_db "c1") = true ∧
    check_permission_for_principal c1_fixture_db "c1" "read" c1_fixture_principal
        (some c1_fixture_record) = Except.error role_query_bind_error := by
  have hlp : list_policies c1_fixture_db "c1" = [c1_fixture_policy] := by
    simp [list_policies, c1_fixture_db, c1_fixture_policy]
  constructor
  · rw [hlp]
    rfl
  · simp only [check_permission_for_principal, hlp]
    rfl

theorem hasDoubleUnderscore_append (a b : List Char) :
    hasDoubleUnderscore (a ++ '_' :: '_' :: b) = true := by
  induction a with
  | nil => simp [hasDoubleUnderscore]
  | cons c a ih =>
    cases a with
    | nil => simp_all [hasDoubleUnderscore]
    | cons c2 a2 => simp_all [hasDoubleUnderscore]

theorem op_suffixed_key_ne_owner_column (s₁ s₂ : String) :
    s₁ ++ "__" ++ s₂ ≠ "created_by_app_user_id" := by
  intro h
  have hd : (s₁ ++ "__" ++ s₂).data = "created_by_app_user_id".data := by rw [h]
  have h1 : (s₁ ++ "__" ++ s₂).data = s₁.data ++ '_' :: '_' :: s₂.data := by
    simp [String.data_append]
  have h2 : hasDoubleUnderscore ("created_by_app_user_id".data) = true := by
    rw [← hd, h1]
    exact hasDoubleUnderscore_append s₁.data s₂.data
  exact absurd h2 (by decide)

theorem pyDictLookup_map_replace {α : Type} (k target : String) (v : α)
    (m : List (String × α)) (hne : k ≠ target) :
    pyDictLookup (m.map (fun kv => if kv.1 == k then (k, v) else kv)) target
      = pyDictLookup m target := by
  unfold pyDictLookup
  rw [List.find?_map]
  have hpred : ((fun kv : String × α => kv.1 == target)
      ∘ (fun kv => if kv.1 == k then (k, v) else kv)) = fun kv => kv.1 == target := by
    funext kv
    by_cases h : kv.1 = k
    · simp [Function.comp, h, hne]
    · simp [Function.comp, h]
  rw [hpred]
  cases hm : List.find? (fun kv : String × α => kv.1 == target) m with
  | none => simp
  | some kv =>
    have h1 : kv.1 = target := by simpa using List.find?_some hm
    simp [h1, Ne.symm hne]

theorem pyDictLookup_insert_ne {α : Type} (k target : String) (v : α)
    (m : List (String × α)) (hne : k ≠ target) :
    pyDictLookup (pyDictInsert k v m) target = pyDictLookup m target := by
  unfold pyDictInsert
  by_cases hany : (m.any (fun kv => kv.1 == k)) = true
  · simp only [hany, if_true]
    exact pyDictLookup_map_replace k target v m hne
  · have hany' : (m.any (fun kv => kv.1 == k)) = false := by
      cases h : (m.any fun kv => kv.1 == k) with
      | true => exact absurd h hany
      | false => rfl
    simp only [hany', Bool.false_eq_true, if_false]
    cases hm : List.find? (fun kv : String × α => kv.1 == target) m with
    | some x => simp [pyDictLookup, List.find?_append, hm]
    | none => simp [pyDictLookup, List.find?_append, hm, List.find?_cons, hne]

theorem pyDictLookup_eq_some_mem {α : Type} {m : List (String × α)} {k : String} {v : α}
    (h : pyDictLookup m k = some v) : (k, v) ∈ m := by
  unfold pyDictLookup at h
  cases hm : List.find? (fun kv => kv.1 == k) m with
  | none => rw [hm] at h; simp at h
  | some e =>
    rw [hm] at h
    simp only [Option.map_some'] at h
    have hk : e.1 = k := by simpa using List.find?_some hm
    have hmem := List.mem_of_find?_eq_some hm
    have : (k, v) = e := by
      cases e
      simp only [Option.some.injEq] at h
      simp_all
    rw [this]
    exact hmem

theorem process_param_preserves_owner_filter
    (fm : List (String × FieldRec)) (filters : List (String × FilterVal)) (kv : String × String)
    (hfm : ∀ e ∈ fm, e.2.sql_column_name ≠ "created_by_app_user_id")
    (hkv : route_parse_key kv.1 ≠ ("created_by_app_user_id", "eq")) :
    pyDictLookup (process_list_filter_param fm filters kv) "created_by_app_user_id"
      = pyDictLookup filters "created_by_app_user_id" := by
  simp only [process_list_filter_param]
  split
  · rfl
  · split
    next f heq =>
      have hcol : f.sql_column_name ≠ "created_by_app_user_id" :=
        hfm _ (pyDictLookup_eq_some_mem heq)
      split
      · exact pyDictLookup_insert_ne _ _ _ _ (op_suffixed_key_ne_owner_column _ _)
      · exact pyDictLookup_insert_ne _ _ _ _ hcol
    next heq =>
      split
      · split
        · exact pyDictLookup_insert_ne _ _ _ _ (op_suffixed_key_ne_owner_column _ _)
        next hop =>
          have hop' : (route_parse_key kv.1).2 = "eq" := by
            simpa [bne] using hop
          have hbase : (route_parse_key kv.1).1 ≠ "created_by_app_user_id" := by
            intro hb
            exact hkv (Prod.ext hb hop')
          exact pyDictLookup_insert_ne _ _ _ _ hbase
      · rfl

/-- C3 counterexample: a list request filter key naming a field that is
neither in the catalog nor a system column is silently dropped from the
compiled filter map and no error of any kind is raised (the assembly is a
total function), while a known field on the same request pipeline is kept:
the claim that an unknown filter field is rejected with a 400-class error is
false on this code path. -/
theorem unknown_filter_field_not_rejected_counterexample :
    assemble_list_filters
      { type := "admin_user", admin_user := some { id := "u1", email := "admin@example.com" } }
      [{ id := "f1", collection_id := "c1", name := "title", display_name := "Title",
         field_type := "string", sql_column_name := "title" }]
      [("bogus", "1")] = []
    ∧ assemble_list_filters
      { type := "admin_user", admin_user := some { id := "u1", email := "admin@example.com" } }
      [{ id := "f1", collection_id := "c1", name := "title", display_name := "Title",
         field_type := "string", sql_column_name := "title" }]
      [("title", "x")] = [("title", FilterVal.str "x")] :=
  ⟨by decide, by decide⟩

/-- C3 (amended): a list request filter key whose base field is neither a
catalog field of the collection nor a system column is silently dropped:
processing it leaves the compiled filter map unchanged, no validation error
is raised, and the query proceeds with the remaining filters. -/
theorem unknown_filter_param_silently_dropped
    (fields : List FieldRec) (filters : List (String × FilterVal)) (key value : String)
    (hun : pyDictLookup (build_route_field_map fields) (route_parse_key key).1 = none)
    (hsys : system_columns.contains (route_parse_key key).1 = false) :
    process_list_filter_param (build_route_field_map fields) filters (key, value) = filters := by
  simp only [process_list_filter_param]
  split
  · rfl
  · split
    next f heq => simp [hun] at heq
    next heq =>
      split
      next hsys2 =>
        rw [hsys] at hsys2
        cases hsys2
      next => rfl

/-- Witness for C3 at the concrete unknown key bogus. -/
theorem unknown_filter_param_silently_dropped_witness :
    pyDictLookup
        (build_route_field_map
          [{ id := "f1", collection_id := "c1", name := "title", display_name := "Title",
             field_type := "string", sql_column_name := "title" }])
        (route_parse_key "bogus").1 = none
    ∧ system_columns.contains (route_parse_key "bogus").1 = false
    ∧ process_list_filter_param
        (build_route_field_map
          [{ id := "f1", collection_id := "c1", name := "title", display_name := "Title",
             field_type := "string", sql_column_name := "title" }])
        [("title", FilterVal.str "x")] ("bogus", "1")
      = [("title", FilterVal.str "x")] := by
  refine ⟨by decide, by decide, ?_⟩
  exact unknown_filter_param_silently_dropped _ _ _ "1" (by decide) (by decide)

/-- C10 counterexample: the ownership filter injected for an app user
principal (id 7) is overwritten by a caller-supplied equality filter on
`created_by_app_user_id`, so the compiled predicate constrains the column to
the caller-chosen value 999 instead of the app user id: the claim that the
rows and total are scoped to the requesting app user regardless of
caller-supplied filters is false. -/
theorem app_user_scope_filter_override_counterexample :
    assemble_list_filters
      { type := "app_user",
        app_user := some { id := "7", email := "seven@example.com", is_email_verified := true } }
      [] [("created_by_app_user_id", "999")]
      = [("created_by_app_user_id", FilterVal.str "999")]
    ∧ (("999" : String) == "7") = false :=
  ⟨by decide, by decide⟩

/-- C10 (amended): for an app user principal the list endpoint injects the
filter `created_by_app_user_id = app user id` first, and this binding is
what reaches the compiled predicate shared by `list_records` and
`count_records`, provided no non-deleted catalog field maps to the column
`created_by_app_user_id` and no query parameter parses to that base field
with the `eq` operator; such a parameter overwrites the injected value. -/
theorem app_user_scope_filter_survives
    (p : Principal) (u : AppUser) (fields : List FieldRec) (qp : List (String × String))
    (hp : p.type = "app_user") (hu : p.app_user = some u)
    (hfm : ∀ e ∈ build_route_field_map fields, e.2.sql_column_name ≠ "created_by_app_user_id")
    (hqp : ∀ kv ∈ qp, route_parse_key kv.1 ≠ ("created_by_app_user_id", "eq")) :
    pyDictLookup (assemble_list_filters p fields qp) "created_by_app_user_id"
      = some (FilterVal.str u.id) := by
  have main : ∀ (l : List (String × String)) (fs : List (String × FilterVal)),
      (∀ kv ∈ l, route_parse_key kv.1 ≠ ("created_by_app_user_id", "eq")) →
      pyDictLookup fs "created_by_app_user_id" = some (FilterVal.str u.id) →
      pyDictLookup (l.foldl (process_list_filter_param (build_route_field_map fields)) fs)
        "created_by_app_user_id" = some (FilterVal.str u.id) := by
    intro l
    induction l with
    | nil => intro fs _ hfs; exact hfs
    | cons kv rest ih =>
      intro fs hl hfs
      simp only [List.foldl_cons]
      refine ih _ (fun e he => hl e (List.mem_cons_of_mem _ he)) ?_
      rw [process_param_preserves_owner_filter _ _ _ hfm (hl kv (List.mem_cons_self _ _))]
      exact hfs
  simp only [assemble_list_filters, hu, hp]
  refine main qp _ hqp ?_
  simp [pyDictLookup, List.find?]

/-- Witness for C10 at a concrete app user, one catalog field, and one
harmless query parameter. -/
theorem app_user_scope_filter_survives_witness :
    (∀ e ∈ build_route_field_map
        [{ id := "f1", collection_id := "c1", name := "title", display_name := "Title",
           field_type := "string", sql_column_name := "title" }],
      e.2.sql_column_name ≠ "created_by_app_user_id")
    ∧ (∀ kv ∈ ([("title", "x")] : List (String × String)),
        route_parse_key kv.1 ≠ ("created_by_app_user_id", "eq"))
    ∧ pyDictLookup
        (assemble_list_filters
          { type := "app_user",
            app_user := some { id := "7", email := "seven@example.com", is_email_verified := true } }
          [{ id := "f1", collection_id := "c1", name := "title", display_name := "Title",
             field_type := "string", sql_column_name := "title" }]
          [("title", "x")])
        "created_by_app_user_id"
      = some (FilterVal.str "7") := by
  refine ⟨by decide, by decide, ?_⟩
  exact app_user_scope_filter_survives _
    { id := "7", email := "seven@example.com", is_email_verified := true } _ _
    rfl rfl (by decide) (by decide)

/-- C8 counterexample: adding a field with `is_required = true` and no
default value does not succeed: `add_field` rejects it with a 400 validation
error before any catalog insert or DDL, contradicting the claim that such a
field is created (as a nullable column) rather than rejected. -/
theorem required_field_no_default_rejected_counterexample :
    add_field false "p_1"
      { id := "c1", project_id := "p1", name := "articles", display_name := "Articles",
        sql_table_name := "articles", is_active := true }
      [] "subtitle" "Subtitle" "string" true false false none
      = .error (400, "Required fields must have a default value for existing rows") := by
  rfl

/-- C8 (amended): a field with `is_required = true` and no default value is
rejected by `add_field` with the 400 error about required defaults (once the
name and type validations pass and no field of that name exists), so no DDL
is issued for it; the DDL synthesizer `add_column_to_table`, by contrast,
computes the nullability `NULL` rather than `NOT NULL` for any such field,
so a required-no-default field reaching it (outside `add_field`) is created
nullable. -/
theorem required_field_no_default_rejected_and_ddl_nullable
    (is_sqlite : Bool) (schema_name : String) (collection : CollectionRec)
    (collection_fields : List FieldRec) (name display_name field_type : String)
    (is_unique is_indexed : Bool)
    (hslug : validate_slug name = true)
    (htype : pyDictHasKey FIELD_TYPE_MAP field_type = true)
    (hexist : collection_fields.find? (fun f => f.name == name) = none)
    (f : FieldRec) (hreq : f.is_required = true) (hdef : f.default_value = none) :
    add_field is_sqlite schema_name collection collection_fields name display_name field_type
        true is_unique is_indexed none
      = .error (400, "Required fields must have a default value for existing rows")
    ∧ add_column_nullability f = "NULL" := by
  constructor
  · simp [add_field, hslug, htype, hexist]
  · simp [add_column_nullability, hreq, hdef]

/-- Witness for C8 at the concrete field subtitle. -/
theorem required_field_no_default_rejected_and_ddl_nullable_witness :
    validate_slug "subtitle" = true
    ∧ ([] : List FieldRec).find? (fun f => f.name == "subtitle") = none
    ∧ (add_field false "p_1"
        { id := "c1", project_id := "p1", name := "articles", display_name := "Articles",
          sql_table_name := "articles", is_active := true }
        [] "subtitle" "Subtitle" "string" true false false none
        = .error (400, "Required fields must have a default value for existing rows")
      ∧ add_column_nullability
          { id := "f9", collection_id := "c1", name := "subtitle", display_name := "Subtitle",
            field_type := "string", sql_column_name := "subtitle", is_required := true,
            default_value := none } = "NULL") := by
  refine ⟨by decide, by decide, ?_⟩
  exact required_field_no_default_rejected_and_ddl_nullable false "p_1"
    { id := "c1", project_id := "p1", name := "articles", display_name := "Articles",
      sql_table_name := "articles", is_active := true }
    [] "subtitle" "Subtitle" "string" false false (by decide) (by decide) (by decide)
    _ rfl rfl

/-- C7 counterexample: the whitelisted conversion string to text succeeds
but its ALTER statement carries no USING cast expression (the conversion
table stores `None` for that pair), so the claim that every whitelisted
conversion issues `ALTER COLUMN ... TYPE ... USING <cast-expression>` is
false. -/
theorem change_field_type_string_text_no_using_counterexample :
    change_field_type false "p_1"
      { id := "c1", project_id := "p1", name := "items", display_name := "Items",
        sql_table_name := "items", is_active := true }
      { id := "f1", collection_id := "c1", name := "notes", display_name := "Notes",
        field_type := "string", sql_column_name := "notes" }
      "text" true
      = .ok ({ id := "f1", collection_id := "c1", name := "notes", display_name := "Notes",
               field_type := "text", sql_column_name := "notes" },
             ["ALTER TABLE \"p_1\".\"items\" ALTER COLUMN \"notes\" TYPE text"])
    ∧ containsSeq ("USING".data)
        ("ALTER TABLE \"p_1\".\"items\" ALTER COLUMN \"notes\" TYPE text".data)
      = false :=
  ⟨by rfl, by decide⟩

/-- C7 (amended): `change_field_type` rejects a same-type request and any
pair outside the whitelist with a validation error, independently of the
lock state (the checks precede lock acquisition) and with no DDL issued (an
error result carries no statements); each whitelisted pair succeeds on the
Postgres dialect, updates the catalog type, and issues one
`ALTER COLUMN ... TYPE` statement that carries a `USING` cast for
`(int, float)` and `(date, datetime)` but no `USING` clause for
`(string, text)`. -/
theorem change_field_type_whitelist_behavior
    (schema_name : String) (collection : CollectionRec) (field : FieldRec)
    (new_type : String) :
    (∀ (is_sqlite lock_acquired : Bool), field.field_type = new_type →
      change_field_type is_sqlite schema_name collection field new_type lock_acquired
        = .error "New type is the same as current type")
    ∧ (∀ (is_sqlite lock_acquired : Bool), field.field_type ≠ new_type →
        (field.field_type, new_type) ∉ SAFE_TYPE_CONVERSION_PAIRS →
        change_field_type is_sqlite schema_name collection field new_type lock_acquired
          = .error ("Unsafe type conversion from " ++ field.field_type ++ " to " ++ new_type
              ++ ". Use the migration wizard for complex conversions."))
    ∧ (field.field_type = "int" → new_type = "float" →
        change_field_type false schema_name collection field new_type true
          = .ok ({ field with field_type := "float" },
              ["ALTER TABLE " ++ targetTable false schema_name collection.sql_table_name
                ++ " ALTER COLUMN \"" ++ field.sql_column_name ++ "\" TYPE "
                ++ "double precision" ++ " USING "
                ++ ("CAST(" ++ ("\"" ++ field.sql_column_name ++ "\"")
                    ++ " AS double precision)")]))
    ∧ (field.field_type = "date" → new_type = "datetime" →
        change_field_type false schema_name collection field new_type true
          = .ok ({ field with field_type := "datetime" },
              ["ALTER TABLE " ++ targetTable false schema_name collection.sql_table_name
                ++ " ALTER COLUMN \"" ++ field.sql_column_name ++ "\" TYPE "
                ++ "timestamptz" ++ " USING "
                ++ ("CAST(" ++ ("\"" ++ field.sql_column_name ++ "\"")
                    ++ " AS timestamptz)")]))
    ∧ (field.field_type = "string" → new_type = "text" →
        change_field_type false schema_name collection field new_type true
          = .ok ({ field with field_type := "text" },
              ["ALTER TABLE " ++ targetTable false schema_name collection.sql_table_name
                ++ " ALTER COLUMN \"" ++ field.sql_column_name ++ "\" TYPE "
                ++ "text"])) := by
  refine ⟨?_, ?_, ?_, ?_, ?_⟩
  · intro is_sqlite lock_acquired hsame
    simp [change_field_type, hsame]
  · intro is_sqlite lock_acquired hne hnot
    have hsafe : is_safe_type_conversion field.field_type new_type = false := by
      simp [is_safe_type_conversion, hne, -List.elem_eq_mem]
      simpa using hnot
    have hbeq : (field.field_type == new_type) = false := by simp [hne]
    simp [change_field_type, hbeq, hsafe]
  · intro h1 h2
    subst h2
    obtain ⟨fid, cid, nm, dnm, ftype, col, req, uq, ix, dv, del, delat, sys, hid⟩ := field
    have h1' : ftype = "int" := h1
    subst h1'
    rfl
  · intro h1 h2
    subst h2
    obtain ⟨fid, cid, nm, dnm, ftype, col, req, uq, ix, dv, del, delat, sys, hid⟩ := field
    have h1' : ftype = "date" := h1
    subst h1'
    rfl
  · intro h1 h2
    subst h2
    obtain ⟨fid, cid, nm, dnm, ftype, col, req, uq, ix, dv, del, delat, sys, hid⟩ := field
    have h1' : ftype = "string" := h1
    subst h1'
    rfl

/-- Witness for C7: float to bool is rejected as unsafe (even without the
lock), and int to float succeeds with a USING cast. -/
theorem change_field_type_whitelist_behavior_witness :
    (("float", "bool") ∉ SAFE_TYPE_CONVERSION_PAIRS)
    ∧ change_field_type true "p_1" c7_fixture_collection c7_fixture_float_field "bool" false
      = .error "Unsafe type conversion from float to bool. Use the migration wizard for complex conversions."
    ∧ change_field_type false "p_1" c7_fixture_collection c7_fixture_int_field "float" true
      = .ok ({ c7_fixture_int_field with field_type := "float" },
          ["ALTER TABLE \"p_1\".\"items\" ALTER COLUMN \"qty\" TYPE double precision USING CAST(\"qty\" AS double precision)"]) := by
  refine ⟨by decide, ?_, ?_⟩
  · have h := (change_field_type_whitelist_behavior "p_1" c7_fixture_collection
      c7_fixture_float_field "bool").2.1 true false (by decide) (by decide)
    rw [h]
    rfl
  · have h := (change_field_type_whitelist_behavior "p_1" c7_fixture_collection
      c7_fixture_int_field "float").2.2.1 rfl rfl
    rw [h]
    rfl

/-- C4: evidence that the engine does NOT protect system fields. With
`force = true`, `hard_delete_field` on a field with `is_system = true`
succeeds: it issues the `DROP COLUMN` DDL and removes the Field row from the
catalog; and `change_field_type` on a system int field succeeds and changes
its logical type. Neither the service nor its route checks `is_system`, so
the documented invariant (see `is_field_protected` in
`users_collection.py`: a protected system field cannot be deleted or have
its type changed) is violated by the code. -/
theorem system_field_hard_delete_and_change_type_succeed :
    hard_delete_field false "p_1"
      { id := "c1", project_id := "p1", name := "users_x", display_name := "Users",
        sql_table_name := "users_x", is_active := true, is_system := true }
      [{ id := "f1", collection_id := "c1", name := "email", display_name := "Email",
         field_type := "string", sql_column_name := "email", is_system := true }]
      { id := "f1", collection_id := "c1", name := "email", display_name := "Email",
        field_type := "string", sql_column_name := "email", is_system := true }
      true true
      = .ok ([], ["ALTER TABLE \"p_1\".\"users_x\" DROP COLUMN \"email\""])
    ∧ change_field_type false "p_1"
      { id := "c1", project_id := "p1", name := "users_x", display_name := "Users",
        sql_table_name := "users_x", is_active := true, is_system := true }
      { id := "f2", collection_id := "c1", name := "age", display_name := "Age",
        field_type := "int", sql_column_name := "age", is_system := true }
      "float" true
      = .ok ({ id := "f2", collection_id := "c1", name := "age", display_name := "Age",
               field_type := "float", sql_column_name := "age", is_system := true },
             ["ALTER TABLE \"p_1\".\"users_x\" ALTER COLUMN \"age\" TYPE double precision USING CAST(\"age\" AS double precision)"]) :=
  ⟨by rfl, by rfl⟩

theorem find?_map_replace_found {α : Type} (g : α → α) (p key : α → Bool) (u : α)
    (l : List α)
    (hrepl : ∀ x ∈ l, key x = true → g x = u)
    (hskip : ∀ x ∈ l, key x = false → p (g x) = false)
    (hu : p u = true)
    (hex : ∃ x ∈ l, key x = true) :
    (l.map g).find? p = some u := by
  induction l with
  | nil =>
    obtain ⟨x, hx, _⟩ := hex
    cases hx
  | cons a l ih =>
    cases hk : key a with
    | true =>
      have hg := hrepl a (List.mem_cons_self a l) hk
      simp [List.find?_cons, hg, hu]
    | false =>
      have hs := hskip a (List.mem_cons_self a l) hk
      simp only [List.map_cons, List.find?_cons, hs]
      refine ih (fun x hx h => hrepl x (List.mem_cons_of_mem a hx) h)
        (fun x hx h => hskip x (List.mem_cons_of_mem a hx) h) ?_
      obtain ⟨x, hx, hkx⟩ := hex
      rcases List.mem_cons.mp hx with hxa | hxl
      · rw [hxa] at hkx
        rw [hkx] at hk
        cases hk
      · exact ⟨x, hxl, hkx⟩

theorem find?_map_all_false {α : Type} (g : α → α) (p : α → Bool) (l : List α)
    (h : ∀ x ∈ l, p (g x) = false) :
    (l.map g).find? p = none := by
  induction l with
  | nil => rfl
  | cons a l ih =>
    have := h a (List.mem_cons_self a l)
    simp only [List.map_cons, List.find?_cons, this]
    exact ih (fun x hx => h x (List.mem_cons_of_mem a hx))


/-- C5: after a successful `rename_collection` from old name N to new name M
(under the standard catalog uniqueness assumptions: the renamed row is the
one the id lookup finds, no other collection in the project actively uses
either name, and no prior alias for N exists in the project), the written
alias expires exactly 30 days after the rename instant; at every instant
strictly before that expiry both M and N resolve to the same (renamed)
collection row, and at and after the expiry N no longer resolves. -/
theorem rename_collection_alias_resolution
    (st : SchemaState) (project_id collection_id new_name : String)
    (new_display_name : Option String) (tR : Nat) (c : CollectionRec) (st' : SchemaState)
    (hfind : st.collections.find? (fun x => x.id == collection_id) = some c)
    (hcp : c.project_id = project_id)
    (hact : c.is_active = true)
    (hMN : new_name ≠ c.name)
    (hnoM : ∀ x ∈ st.collections, x.id ≠ collection_id →
      ¬(x.project_id = project_id ∧ x.name = new_name ∧ x.is_active = true))
    (hnoN : ∀ x ∈ st.collections, x.id ≠ collection_id →
      ¬(x.project_id = project_id ∧ x.name = c.name ∧ x.is_active = true))
    (hnoAlias : ∀ a ∈ st.collection_aliases,
      ¬(a.project_id = project_id ∧ a.old_name = c.name))
    (hrename : rename_collection st project_id collection_id new_name new_display_name tR true
      = .ok st') :
    (∃ a ∈ st'.collection_aliases, a.project_id = project_id ∧ a.old_name = c.name
      ∧ a.expires_at = some (tR + aliasGracePeriodSeconds))
    ∧ (∀ t, t < tR + aliasGracePeriodSeconds →
        ∃ c', resolve_collection_by_name_or_alias st' project_id new_name t = some c'
          ∧ resolve_collection_by_name_or_alias st' project_id c.name t = some c'
          ∧ c'.id = c.id)
    ∧ (∀ t, tR + aliasGracePeriodSeconds ≤ t →
        resolve_collection_by_name_or_alias st' project_id c.name t = none) := by
  have hcid : c.id = collection_id := by simpa using List.find?_some hfind
  have hcmem : c ∈ st.collections := List.mem_of_find?_eq_some hfind
  by_cases hslug : validate_slug new_name = true
  case neg =>
    have hslug' : validate_slug new_name = false := by
      cases h : validate_slug new_name with
      | true => exact absurd h hslug
      | false => rfl
    simp [rename_collection, hslug'] at hrename
  case pos =>
    simp only [rename_collection, hslug, Bool.not_true, Bool.false_eq_true, if_false,
      hfind] at hrename
    injection hrename with hst'
    subst hst'
    have hupd_id : (renamed_collection c new_name new_display_name).id = c.id := rfl
    have hupd_name : (renamed_collection c new_name new_display_name).name = new_name := rfl
    have hupd_proj : (renamed_collection c new_name new_display_name).project_id
        = c.project_id := rfl
    have hupd_act : (renamed_collection c new_name new_display_name).is_active
        = c.is_active := rfl
    have hkeyskipM : ∀ x ∈ st.collections, (x.id == collection_id) = false →
        ((x.project_id == project_id && x.name == new_name && x.is_active)) = false := by
      intro x hx hk
      have hxne : x.id ≠ collection_id := by simpa using hk
      have hn := hnoM x hx hxne
      cases hb : (x.project_id == project_id) <;> cases hn2 : (x.name == new_name) <;>
        cases ha : x.is_active <;> simp_all
    have hkeyskipN : ∀ x ∈ st.collections, (x.id == collection_id) = false →
        ((x.project_id == project_id && x.name == c.name && x.is_active)) = false := by
      intro x hx hk
      have hxne : x.id ≠ collection_id := by simpa using hk
      have hn := hnoN x hx hxne
      cases hb : (x.project_id == project_id) <;> cases hn2 : (x.name == c.name) <;>
        cases ha : x.is_active <;> simp_all
    have hrepl : ∀ x ∈ st.collections, (x.id == collection_id) = true →
        (if x.id == collection_id then renamed_collection c new_name new_display_name else x)
          = renamed_collection c new_name new_display_name := by
      intro x _ hk
      simp [hk]
    have hex : ∃ x ∈ st.collections, (x.id == collection_id) = true :=
      ⟨c, hcmem, by simp [hcid]⟩
    have hfindNew :
        (st.collections.map (fun x =>
            if x.id == collection_id then renamed_collection c new_name new_display_name
            else x)).find?
          (fun x => x.project_id == project_id && x.name == new_name && x.is_active)
          = some (renamed_collection c new_name new_display_name) := by
      refine find?_map_replace_found _ _ (fun x => x.id == collection_id) _ _
        hrepl (fun x hx hk => by
          rw [if_neg (by simp_all)]
          exact hkeyskipM x hx hk) ?_ hex
      simp [hupd_name, hupd_proj, hupd_act, hcp, hact]
    have hfindOldNone :
        (st.collections.map (fun x =>
            if x.id == collection_id then renamed_collection c new_name new_display_name
            else x)).find?
          (fun x => x.project_id == project_id && x.name == c.name && x.is_active)
          = none := by
      refine find?_map_all_false _ _ _ ?_
      intro x hx
      cases hk : (x.id == collection_id) with
      | true =>
        have hne : ((renamed_collection c new_name new_display_name).name == c.name)
            = false := by
          rw [hupd_name]
          simp [hMN]
        simp [hne]
      | false =>
        rw [if_neg (by simp)]
        exact hkeyskipN x hx hk
    have h1 : List.find?
        (fun a : CollectionAliasRec => a.project_id == project_id && a.old_name == c.name)
        st.collection_aliases = none := by
      rw [List.find?_eq_none]
      intro a ha
      have hn := hnoAlias a ha
      cases hb : (a.project_id == project_id) <;> cases ho : (a.old_name == c.name) <;>
        simp_all
    have hfindAlias : List.find?
        (fun a : CollectionAliasRec => a.project_id == project_id && a.old_name == c.name)
        (st.collection_aliases
          ++ [({ collection_id := c.id, project_id := project_id, old_name := c.name,
                 expires_at := some (tR + aliasGracePeriodSeconds) } : CollectionAliasRec)])
        = some ({ collection_id := c.id, project_id := project_id, old_name := c.name,
                  expires_at := some (tR + aliasGracePeriodSeconds) } : CollectionAliasRec) := by
      rw [List.find?_append, h1]
      simp
    have hfindById :
        (st.collections.map (fun x =>
            if x.id == collection_id then renamed_collection c new_name new_display_name
            else x)).find?
          (fun x => x.id == c.id) = some (renamed_collection c new_name new_display_name) := by
      refine find?_map_replace_found _ _ (fun x => x.id == collection_id) _ _
        hrepl (fun x hx hk => by
          rw [if_neg (by simp_all)]
          have hxne : x.id ≠ collection_id := by simpa using hk
          have hxc : x.id ≠ c.id := by
            rw [hcid]
            exact hxne
          simp [hxc]) ?_ hex
      simp [hupd_id, hcid]
    refine ⟨⟨_, List.mem_append_right _ (List.mem_singleton.mpr rfl), rfl, rfl, rfl⟩, ?_, ?_⟩
    · intro t ht
      refine ⟨renamed_collection c new_name new_display_name, ?_, ?_, hupd_id⟩
      · simp only [resolve_collection_by_name_or_alias, hfindNew]
      · simp only [resolve_collection_by_name_or_alias, hfindOldNone, hfindAlias]
        rw [if_pos (by simp [ht])]
        exact hfindById
    · intro t ht
      simp only [resolve_collection_by_name_or_alias, hfindOldNone, hfindAlias]
      rw [if_neg (by simp; omega)]

/-- Witness for C5: renaming orders to purchases at instant 1000 writes an
alias expiring at 2593000; both names resolve to the same row at instant
1000 and the old name no longer resolves at the expiry instant. -/
theorem rename_collection_alias_resolution_witness :
    validate_slug "purchases" = true
    ∧ rename_collection c5_fixture_pre "p1" "c1" "purchases" none 1000 true
      = .ok c5_fixture_post
    ∧ (∃ c', resolve_collection_by_name_or_alias c5_fixture_post "p1" "purchases" 1000
          = some c'
        ∧ resolve_collection_by_name_or_alias c5_fixture_post "p1" "orders" 1000 = some c'
        ∧ c'.id = "c1")
    ∧ resolve_collection_by_name_or_alias c5_fixture_post "p1" "orders" 2593000 = none := by
  have h := rename_collection_alias_resolution c5_fixture_pre "p1" "c1" "purchases" none 1000
    c5_fixture_orders c5_fixture_post (by rfl) rfl rfl (by decide) (by decide) (by decide)
    (by decide) (by rfl)
  exact ⟨by decide, by rfl, h.2.1 1000 (by decide), h.2.2 2593000 (by decide)⟩

/-- C6 counterexample: a caller-supplied negative limit (the execute request
schema does not bound `limit` below) passes the clamp unchanged, because
`min` only caps from above: on the SQLite dialect the resulting negative SQL
LIMIT returns every matching row, exceeding the claimed bound
`min(requested_limit or default_limit, max_limit, MAX_ROWS)`, which is
negative and therefore cannot bound any nonempty result. -/
theorem execute_view_negative_limit_unbounded_counterexample :
    execute_view true
      { name := "recent", version := 1, default_limit := 100, max_limit := 1000 }
      [[("id", Value.int 1)], [("id", Value.int 2)]] none (some (-1)) 0
      = .ok { data := [[("id", Value.int 1)], [("id", Value.int 2)]], total := 2,
              limit := -1, offset := 0, view_name := "recent", view_version := 1 }
    ∧ view_effective_limit
        { name := "recent", version := 1, default_limit := 100, max_limit := 1000 }
        none (some (-1)) = -1
    ∧ ((-1 : Int) < 2) :=
  ⟨by rfl, by rfl, by decide⟩

theorem scan_view_params_limit_nonneg (schema : List (String × String))
    (params : Option (List (String × Int)))
    (hparams : ∀ ps, params = some ps → ∀ kv ∈ ps, 0 ≤ kv.2) :
    ∀ v, (scan_view_params schema params).1 = some v → 0 ≤ v := by
  unfold scan_view_params
  suffices h : ∀ (acc : Option Int × Option Int),
      (∀ v, acc.1 = some v → 0 ≤ v) →
      ∀ v, (schema.foldl
        (fun acc nd =>
          if nd.2 == "limit" && (match params with
              | some ps => !ps.isEmpty
              | none => false) then (pyDictLookup (params.getD []) nd.1, acc.2)
          else if nd.2 == "offset" && (match params with
              | some ps => !ps.isEmpty
              | none => false) then (acc.1, pyDictLookup (params.getD []) nd.1)
          else acc) acc).1 = some v → 0 ≤ v by
    intro v hv
    exact h (none, none) (by intro v h; cases h) v hv
  induction schema with
  | nil => intro acc hacc v hv; exact hacc v hv
  | cons nd rest ih =>
    intro acc hacc v
    simp only [List.foldl_cons]
    refine ih _ ?_ v
    intro w hw
    split at hw
    · have hmem := pyDictLookup_eq_some_mem hw
      cases hp : params with
      | none =>
        rw [hp] at hmem
        cases hmem
      | some ps =>
        rw [hp] at hmem
        exact hparams ps hp _ hmem
    · split at hw
      · exact hacc w hw
      · exact hacc w hw

/-- C6 (amended): for every caller-supplied limit, offset, and params whose
limit values are nonnegative (or absent), and nonnegative stored view
limits, `execute_view` returns at most
`min(final_limit or default_limit, max_limit, MAX_ROWS)` rows, where
`final_limit` is the parameterized limit when declared and supplied and the
request limit otherwise; the returned `limit` field equals that clamp. A
negative caller limit escapes the clamp (see the counterexample). -/
theorem execute_view_row_cap
    (is_sqlite : Bool) (view : ViewRec) (matching : List Record)
    (params : Option (List (String × Int))) (limit : Option Int) (offset : Int)
    (res : ViewExecResult)
    (hdef : 0 ≤ view.default_limit) (hmax : 0 ≤ view.max_limit)
    (hlim : ∀ l, limit = some l → 0 ≤ l)
    (hparams : ∀ ps, params = some ps → ∀ kv ∈ ps, 0 ≤ kv.2)
    (hok : execute_view is_sqlite view matching params limit offset = .ok res) :
    res.limit = view_effective_limit view params limit
    ∧ (res.data.length : Int) ≤ view_effective_limit view params limit := by
  have hfin : 0 ≤ pyOrInt (view_final_limit view params limit) view.default_limit := by
    unfold view_final_limit
    cases hscan : (scan_view_params view.params_schema params).1 with
    | some v =>
      have hv := scan_view_params_limit_nonneg view.params_schema params hparams v hscan
      by_cases hz : v = 0
      · simp [pyOrInt, hz, hdef]
      · simp only [pyOrInt]
        rw [if_neg (by simpa using hz)]
        exact hv
    | none =>
      cases hl : limit with
      | none => simpa [pyOrInt] using hdef
      | some l =>
        have hv := hlim l hl
        by_cases hz : l = 0
        · simp [pyOrInt, hz, hdef]
        · simp only [pyOrInt]
          rw [if_neg (by simpa using hz)]
          exact hv
  have heff : 0 ≤ view_effective_limit view params limit := by
    unfold view_effective_limit
    refine le_min (le_min hfin hmax) ?_
    norm_num [MAX_ROWS]
  have hnotneg : ¬(view_effective_limit view params limit < 0) := not_lt.mpr heff
  unfold execute_view at hok
  rw [if_neg (by simp [hnotneg])] at hok
  rw [if_neg hnotneg] at hok
  injection hok with hres
  subst hres
  refine ⟨rfl, ?_⟩
  have hlen : (((matching.drop (match (scan_view_params view.params_schema params).2 with
        | some v => v
        | none => offset).toNat).take
      (view_effective_limit view params limit).toNat).length : Int)
      ≤ ((view_effective_limit view params limit).toNat : Int) := by
    exact_mod_cast List.length_take_le _ _
  calc _ ≤ ((view_effective_limit view params limit).toNat : Int) := hlen
    _ = view_effective_limit view params limit := Int.toNat_of_nonneg heff

/-- Witness for C6 at a concrete nonnegative request limit of 2 over three
matching rows. -/
theorem execute_view_row_cap_witness :
    execute_view true c6_fixture_view c6_fixture_rows none (some 2) 0
      = .ok { data := [[("id", Value.int 1)], [("id", Value.int 2)]], total := 3,
              limit := 2, offset := 0, view_name := "recent", view_version := 1 }
    ∧ ({ data := [[("id", Value.int 1)], [("id", Value.int 2)]], total := 3,
         limit := 2, offset := 0, view_name := "recent",
         view_version := 1 : ViewExecResult }.limit
          = view_effective_limit c6_fixture_view none (some 2)
      ∧ (({ data := [[("id", Value.int 1)], [("id", Value.int 2)]], total := 3,
            limit := 2, offset := 0, view_name := "recent",
            view_version := 1 : ViewExecResult }.data.length : Int)
          ≤ view_effective_limit c6_fixture_view none (some 2))) := by
  refine ⟨by rfl, ?_⟩
  exact execute_view_row_cap true c6_fixture_view c6_fixture_rows none (some 2) 0 _
    (by decide) (by decide)
    (by intro l hl; injection hl with h; rw [← h]; decide)
    (by intro ps hps; cases hps)
    (by rfl)
